import Mathlib

/-!
Shallow embedding of the typography core of the Font-Rendering-Tool
repository (src/script.js): the control-state → style/CSS projection
(`applyBasicStyling` / `applyOpenTypeFeatures` / `applyLayoutOptimizations`
/ `generateCSS`) and the metrics engine (`calculateTextMetrics` /
`calculateLayoutScore` / `hasCommonLigatures`).

Modelling conventions:
- A JavaScript string is modelled as a `List Char` of Unicode scalar
  values; `String.prototype.length` (UTF-16 code units) is modelled by
  `utf16Length`, which counts 2 for a scalar value outside the Basic
  Multilingual Plane and 1 otherwise.
- JavaScript numbers are modelled as exact rationals `ℚ`; `parseInt` on a
  decimal numeral string is modelled as truncation toward zero
  (`jsParseInt`).
- CSS declaration values are modelled structurally (`CssVal`) rather than
  as formatted text, so that the live style map and the exported rule
  block can be compared declaration by declaration.
-/

/-- Characters matched by the JavaScript regular-expression class `\s`
(also exactly the set removed by `String.prototype.trim`). -/
def isJsWhitespace (c : Char) : Bool :=
  let n := c.toNat
  (9 ≤ n && n ≤ 13) || n == 32 || n == 160 || n == 5760 ||
  (8192 ≤ n && n ≤ 8202) || n == 8232 || n == 8233 || n == 8239 ||
  n == 8287 || n == 12288 || n == 65279

/-- JavaScript `text.length`: the number of UTF-16 code units. A scalar
value below `0x10000` occupies one code unit, any other scalar value
occupies a surrogate pair (two code units). -/
def utf16Length : List Char → ℕ
  | [] => 0
  | c :: rest => (if c.toNat < 65536 then 1 else 2) + utf16Length rest

/-- JavaScript `hay.includes(needle)`: substring containment. -/
def jsIncludes (needle hay : List Char) : Bool :=
  hay.tails.any fun t => needle.isPrefixOf t

/-- JavaScript `text.trim()`: remove leading and trailing whitespace. -/
def jsTrim (t : List Char) : List Char :=
  (((t.dropWhile isJsWhitespace).reverse).dropWhile isJsWhitespace).reverse

/-- Worker for `splitWs`; `acc` holds the current segment reversed and
`prevWs` records whether the previous character belonged to a whitespace
run (so that a maximal run counts as a single separator occurrence).
Mirrors JavaScript `String.prototype.split(/\s+/)`: the (possibly empty)
pieces between separator occurrences are returned. -/
def splitWsGo (prevWs : Bool) (acc : List Char) : List Char → List (List Char)
  | [] => [acc.reverse]
  | c :: rest =>
    if isJsWhitespace c then
      if prevWs then splitWsGo true acc rest
      else acc.reverse :: splitWsGo true [] rest
    else
      splitWsGo false (c :: acc) rest

/-- JavaScript `text.split(/\s+/)`. -/
def splitWs (t : List Char) : List (List Char) :=
  splitWsGo false [] t

/-- `script.js:418`: `text.trim() === '' ? 0 : text.trim().split(/\s+/).length`. -/
def jsWords (t : List Char) : ℕ :=
  if jsTrim t = [] then 0 else (splitWs (jsTrim t)).length

/-- JavaScript `parseInt` applied to the decimal numeral for the value
`q`: truncation toward zero. -/
def jsParseInt (q : ℚ) : ℤ :=
  if q < 0 then ⌈q⌉ else ⌊q⌋

/-- The control state sampled from the UI (`getControlValues` plus the
instance fields `currentAlignment`, `activeFeatures`, `hyphenation`,
`layoutOptimization` of the engine object). `activeFeatures` is a
JavaScript `Set` of tag strings, iterated in insertion order, hence a
list. -/
structure ControlState where
  fontFamily : String
  fontSize : ℚ
  fontWeight : ℚ
  letterSpacing : ℚ
  lineHeight : ℚ
  wordSpacing : ℚ
  alignment : String
  activeFeatures : List String
  hyphenation : Bool
  layoutOptimization : Bool
deriving DecidableEq

/-- The property names a bare lookup on an object literal resolves
through the prototype chain: the own property names of
`Object.prototype`. Each resolves to a truthy non-string value — a
built-in function, or `Object.prototype` itself for `__proto__` — so the
truthiness tests at `script.js:338` and `script.js:512` keep it. -/
def protoKeys : List String :=
  ["constructor", "__defineGetter__", "__defineSetter__", "hasOwnProperty",
   "__lookupGetter__", "__lookupSetter__", "isPrototypeOf",
   "propertyIsEnumerable", "toString", "valueOf", "__proto__",
   "toLocaleString"]

/-- The string coercion `Array.prototype.join` applies to the truthy
value found at an inherited `Object.prototype` key: `String(fn)` for the
built-in functions (whose name is the key, except `constructor`, which is
the `Object` constructor) and `String(Object.prototype)` for
`__proto__`. -/
def protoLookupString (k : String) : String :=
  if k = "constructor" then "function Object() \x7b [native code] \x7d"
  else if k = "__proto__" then "[object Object]"
  else "function " ++ k ++ "() \x7b [native code] \x7d"

/-- The `featureMap` lookup of `applyOpenTypeFeatures` (`script.js:328`)
and `generateCSS` (`script.js:501`). The source reads
`featureMap[feature]` as a bare property access on an object literal: an
own entry yields its string; a key inherited from `Object.prototype`
(`protoKeys`) yields a truthy non-string value, modelled here by the
string it coerces to when joined; any other key yields `undefined`
(falsy), modelled as `none`. -/
def featureMap (f : String) : Option String :=
  if f = "kerning" then some ("\"kern\" 1")
  else if f = "ligatures" then some ("\"liga\" 1, \"clig\" 1")
  else if f = "smallCaps" then some ("\"smcp\" 1")
  else if f = "oldstyleNums" then some ("\"onum\" 1")
  else if f = "tabularNums" then some ("\"tnum\" 1, \"lnum\" 1")
  else if f = "fractions" then some ("\"frac\" 1")
  else if protoKeys.contains f then some (protoLookupString f)
  else none

/-- `script.js:337-341`: for each active feature in iteration order, push
its table entry if present (unknown tags are skipped). -/
def mappedFeatures (features : List String) : List String :=
  features.filterMap featureMap

/-- JavaScript `Array.prototype.join(', ')`. -/
def joinFeatures : List String → String
  | [] => ""
  | [x] => x
  | x :: xs => x ++ ", " ++ joinFeatures xs

/-- `script.js:343`: `features.join(', ') || 'normal'` — the empty string
is falsy, so an empty join yields the literal string `normal`. -/
def fontFeatureValue (features : List String) : String :=
  let j := joinFeatures (mappedFeatures features)
  if j = "" then "normal" else j

/-- A CSS declaration value: a px-suffixed number, a bare number, or a
keyword/string value. -/
inductive CssVal where
  | px : ℚ → CssVal
  | num : ℚ → CssVal
  | str : String → CssVal
deriving DecidableEq

/-- The live style mapping written onto the preview element by
`applyBasicStyling` (`script.js:315-324`), `applyOpenTypeFeatures`
(`script.js:326-343`) and `applyLayoutOptimizations`
(`script.js:352-372`), as a list of (property, value) declarations. -/
def projectLiveStyle (s : ControlState) : List (String × CssVal) :=
  [("font-family", CssVal.str s.fontFamily),
   ("font-size", CssVal.px s.fontSize),
   ("font-weight", CssVal.num s.fontWeight),
   ("letter-spacing", CssVal.px s.letterSpacing),
   ("line-height", CssVal.num s.lineHeight),
   ("word-spacing", CssVal.px s.wordSpacing),
   ("text-align", CssVal.str s.alignment),
   ("font-feature-settings", CssVal.str (fontFeatureValue s.activeFeatures))]
  ++ (if s.hyphenation then
        [("hyphens", CssVal.str ("auto")),
         ("hyphenate-character", CssVal.str ("‐"))]
      else
        [("hyphens", CssVal.str ("manual"))])
  ++ (if s.layoutOptimization then
        [("text-rendering", CssVal.str ("optimizeLegibility")),
         ("font-optical-sizing", CssVal.str ("auto")),
         ("font-variant-ligatures", CssVal.str ("common-ligatures contextual"))]
      else
        [("text-rendering", CssVal.str ("auto")),
         ("font-optical-sizing", CssVal.str ("none")),
         ("font-variant-ligatures", CssVal.str ("normal"))])

/-- The declarations of the `.custom-typography` rule block emitted by
`generateCSS` (`script.js:515-530`): the seven base properties always,
then `font-feature-settings` only when the joined feature string is
truthy (non-empty), `hyphens: auto` only when hyphenation is on, and the
three optimization properties only when layout optimization is on. -/
def generateCSSMain (s : ControlState) : List (String × CssVal) :=
  [("font-family", CssVal.str s.fontFamily),
   ("font-size", CssVal.px s.fontSize),
   ("font-weight", CssVal.num s.fontWeight),
   ("letter-spacing", CssVal.px s.letterSpacing),
   ("line-height", CssVal.num s.lineHeight),
   ("word-spacing", CssVal.px s.wordSpacing),
   ("text-align", CssVal.str s.alignment)]
  ++ (if joinFeatures (mappedFeatures s.activeFeatures) = "" then []
      else [("font-feature-settings",
             CssVal.str (joinFeatures (mappedFeatures s.activeFeatures)))])
  ++ (if s.hyphenation then [("hyphens", CssVal.str ("auto"))] else [])
  ++ (if s.layoutOptimization then
        [("text-rendering", CssVal.str ("optimizeLegibility")),
         ("font-optical-sizing", CssVal.str ("auto")),
         ("font-variant-ligatures", CssVal.str ("common-ligatures contextual"))]
      else [])

/-- The structured content of the CSS text returned by `generateCSS`: the
main `.custom-typography` block and the two media-query blocks. -/
structure GeneratedCSS where
  main : List (String × CssVal)
  media768 : List (String × CssVal)
  media480 : List (String × CssVal)
deriving DecidableEq

/-- `generateCSS` (`script.js:500-546`). The 768px block uses
`Math.max(14, parseInt(fontSize) * 0.9)` and
`Math.max(1.2, parseFloat(lineHeight) * 0.95)`; the 480px block uses
`Math.max(12, parseInt(fontSize) * 0.8)` (from the original control
value) and `Math.max(0, parseFloat(letterSpacing) * 0.8)`. -/
def generateCSS (s : ControlState) : GeneratedCSS :=
  { main := generateCSSMain s
    media768 :=
      [("font-size", CssVal.px (max 14 ((jsParseInt s.fontSize : ℚ) * (9/10)))),
       ("line-height", CssVal.num (max (6/5) (s.lineHeight * (19/20))))]
    media480 :=
      [("font-size", CssVal.px (max 12 ((jsParseInt s.fontSize : ℚ) * (8/10)))),
       ("letter-spacing", CssVal.px (max 0 (s.letterSpacing * (8/10))))] }

/-- `hasCommonLigatures` (`script.js:401-404`). -/
def hasCommonLigatures (t : List Char) : Bool :=
  [['f', 'i'], ['f', 'l'], ['f', 'f'], ['f', 'f', 'i'], ['f', 'f', 'l']].any
    fun lig => jsIncludes lig t

/-- `calculateLayoutScore` (`script.js:378-399`). `text.split('\n').length`
is the newline count plus one; the `|| 1` guard replaces a zero value by
one (that length is never zero, so the guard is inert). -/
def calculateLayoutScore (t : List Char) (s : ControlState) : ℤ :=
  let segs : ℕ := t.count ('\n') + 1
  let segs : ℕ := if segs = 0 then 1 else segs
  let avgLineLength : ℚ := (utf16Length t : ℚ) / (segs : ℚ)
  let sc1 : ℤ := 100
  let sc2 : ℤ := if avgLineLength > 80 then sc1 - 10 else sc1
  let sc3 : ℤ :=
    if 7/5 ≤ s.lineHeight ∧ s.lineHeight ≤ 8/5 then sc2 + 5 else sc2
  let sc4 : ℤ :=
    if s.activeFeatures.contains ("ligatures") && hasCommonLigatures t then
      sc3 + 5
    else sc3
  let sc5 : ℤ := if |s.letterSpacing| > 2 then sc4 - 5 else sc4
  max 0 (min 100 sc5)

/-- The line-count computation of `calculateTextMetrics`
(`script.js:420-425`), over IEEE-754 semantics made explicit:
`avgCharWidth = parseInt(fontSize) * 0.6`; when it is zero the division
`containerWidth / 0` yields `±Infinity` (container width non-zero) or
`NaN` (container width zero), and `x || 1` replaces `0`, `-0` and `NaN`
by `1`. When `avgCharWidth ≠ 0` all values are finite rationals. -/
def jsLines (len : ℕ) (containerWidth : ℚ) (fontSizeRaw : ℚ) : ℤ :=
  let avgCharWidth : ℚ := (jsParseInt fontSizeRaw : ℚ) * (6/10)
  if avgCharWidth = 0 then
    if containerWidth = 0 then
      -- NaN branch: charsPerLine = NaN || 1 = 1, lines = ceil(len/1) || 1
      if len = 0 then 1 else (len : ℤ)
    else
      -- ±Infinity branch: len / ±Infinity = ±0, ceil(±0) || 1 = 1
      1
  else
    let charsPerLine : ℤ := ⌊containerWidth / avgCharWidth⌋
    let charsPerLine : ℤ := if charsPerLine = 0 then 1 else charsPerLine
    let l : ℤ := ⌈(len : ℚ) / (charsPerLine : ℚ)⌉
    if l = 0 then 1 else l

/-- The record computed per rendering pass: `calculateTextMetrics`
(`script.js:416-432`) plus the layout score and active feature count the
engine computes alongside it. -/
structure DerivedMetrics where
  characters : ℕ
  words : ℕ
  lines : ℤ
  layoutScore : ℤ
  activeFeatureCount : ℕ
deriving DecidableEq

/-- The combined metrics computation: `characters` and the line estimate
use `text.length` (UTF-16 code units); the font size used for the line
estimate passes through `parseInt` (`script.js:422`). -/
def computeMetrics (t : List Char) (s : ControlState) (containerWidth : ℚ) :
    DerivedMetrics :=
  { characters := utf16Length t
    words := jsWords t
    lines := jsLines (utf16Length t) containerWidth s.fontSize
    layoutScore := calculateLayoutScore t s
    activeFeatureCount := s.activeFeatures.length }

/-! ## Specification-side definitions

These restate parts of spec.md in the spec's own words, to be compared
with the definitions translated from the source above. -/

/-- The six feature tags of the specification's data model. -/
inductive FeatureTag where
  | kerning
  | ligatures
  | smallCaps
  | oldstyleNums
  | tabularNums
  | fractions
deriving DecidableEq

/-- The tag string a collaborator stores in `activeFeatures` for a
feature tag. -/
def tagName : FeatureTag → String
  | FeatureTag.kerning => "kerning"
  | FeatureTag.ligatures => "ligatures"
  | FeatureTag.smallCaps => "smallCaps"
  | FeatureTag.oldstyleNums => "oldstyleNums"
  | FeatureTag.tabularNums => "tabularNums"
  | FeatureTag.fractions => "fractions"

/-- The specification's fixed table: the `font-feature-settings` fragment
for each feature tag. -/
def specFeatureStr : FeatureTag → String
  | FeatureTag.kerning => "\"kern\" 1"
  | FeatureTag.ligatures => "\"liga\" 1, \"clig\" 1"
  | FeatureTag.smallCaps => "\"smcp\" 1"
  | FeatureTag.oldstyleNums => "\"onum\" 1"
  | FeatureTag.tabularNums => "\"tnum\" 1, \"lnum\" 1"
  | FeatureTag.fractions => "\"frac\" 1"

/-- The `font-feature-settings` value as the specification words it: map
each tag through the fixed table in insertion order, join with a comma
and a space; the literal `normal` for the empty set. -/
def specFontFeatureSettings (l : List FeatureTag) : String :=
  if l = [] then "normal" else joinFeatures (l.map specFeatureStr)

/-- The layout score as the specification words it: start at 100, apply
the four independent additive adjustments against the same snapshot, then
clamp to [0, 100]. (`characters` of the metrics record equals
`utf16Length`.) -/
def specLayoutScore (t : List Char) (s : ControlState) : ℤ :=
  let avgLineLength : ℚ :=
    (utf16Length t : ℚ) / max 1 ((t.count ('\n') : ℚ) + 1)
  min 100 (max 0 (100
    - (if avgLineLength > 80 then 10 else 0)
    + (if 7/5 ≤ s.lineHeight ∧ s.lineHeight ≤ 8/5 then 5 else 0)
    + (if s.activeFeatures.contains ("ligatures") && hasCommonLigatures t then
         5 else 0)
    - (if |s.letterSpacing| > 2 then 5 else 0)))

/-- A concrete control state with all-integral numeric values (so that
its projections kernel-evaluate); used by counterexamples and witnesses. -/
def sampleState : ControlState :=
  { fontFamily := "serif"
    fontSize := 18
    fontWeight := 400
    letterSpacing := 0
    lineHeight := 1
    wordSpacing := 0
    alignment := "left"
    activeFeatures := ["kerning"]
    hyphenation := false
    layoutOptimization := false }

/-- A control state with font size 16 and letter spacing 0.8 (the
responsive-export scenario of the specification). -/
def sampleState16 : ControlState :=
  { fontFamily := "serif"
    fontSize := 16
    fontWeight := 400
    letterSpacing := 4/5
    lineHeight := 3/2
    wordSpacing := 0
    alignment := "left"
    activeFeatures := []
    hyphenation := false
    layoutOptimization := false }

/-- A control state with the non-integer font size 18.5. -/
def sampleState185 : ControlState :=
  { fontFamily := "serif"
    fontSize := 37/2
    fontWeight := 400
    letterSpacing := 0
    lineHeight := 3/2
    wordSpacing := 0
    alignment := "left"
    activeFeatures := []
    hyphenation := false
    layoutOptimization := false }

/-- A control state whose feature set holds a tag outside the six defined
feature tags. -/
def sampleStateUnknown : ControlState :=
  { fontFamily := "serif"
    fontSize := 18
    fontWeight := 400
    letterSpacing := 0
    lineHeight := 1
    wordSpacing := 0
    alignment := "left"
    activeFeatures := ["kerning", "swashes", "ligatures"]
    hyphenation := false
    layoutOptimization := false }

/-- A control state with an empty feature set and both flags off. -/
def emptyFeatState : ControlState :=
  { fontFamily := "serif"
    fontSize := 18
    fontWeight := 400
    letterSpacing := 0
    lineHeight := 1
    wordSpacing := 0
    alignment := "left"
    activeFeatures := []
    hyphenation := false
    layoutOptimization := false }

/-- A control state whose feature set holds the tag `constructor`: a tag
outside the six defined feature tags that names a property inherited
from `Object.prototype`. -/
def ctorState : ControlState :=
  { fontFamily := "serif"
    fontSize := 18
    fontWeight := 400
    letterSpacing := 0
    lineHeight := 1
    wordSpacing := 0
    alignment := "left"
    activeFeatures := ["constructor"]
    hyphenation := false
    layoutOptimization := false }

/-- A control state with a negative font size (out of the documented
domain, which the core must still not crash on). -/
def negFontState : ControlState :=
  { fontFamily := "serif"
    fontSize := -5
    fontWeight := 400
    letterSpacing := 0
    lineHeight := 1
    wordSpacing := 0
    alignment := "left"
    activeFeatures := []
    hyphenation := false
    layoutOptimization := false }

/-! ## Helper lemmas -/

/-- Known tags look up in the source's `featureMap` to exactly the
specification table entry. -/
theorem featureMap_tagName (t : FeatureTag) :
    featureMap (tagName t) = some (specFeatureStr t) := by
  cases t <;> rfl

theorem specFeatureStr_ne_empty (t : FeatureTag) : specFeatureStr t ≠ "" := by
  cases t <;> decide

theorem joinFeatures_ne_empty (x : String) (xs : List String) (hx : x ≠ "") :
    joinFeatures (x :: xs) ≠ "" := by
  cases xs with
  | nil => simpa [joinFeatures] using hx
  | cons y ys =>
    intro h
    simp only [joinFeatures] at h
    have hlen := congrArg String.length h
    rw [String.length_append, String.length_append] at hlen
    have h2 : String.length (", ") = 2 := rfl
    have h0 : String.length ("") = 0 := rfl
    omega

theorem mappedFeatures_tagName (l : List FeatureTag) :
    mappedFeatures (l.map tagName) = l.map specFeatureStr := by
  induction l with
  | nil => rfl
  | cons t rest ih =>
    simp only [mappedFeatures, List.map_cons, List.filterMap_cons,
      featureMap_tagName]
    simp only [mappedFeatures] at ih
    rw [ih]

theorem length_le_utf16Length (t : List Char) : t.length ≤ utf16Length t := by
  induction t with
  | nil => simp [utf16Length]
  | cons c rest ih =>
    simp only [utf16Length, List.length_cons]
    split_ifs <;> omega

theorem jsParseInt_intCast (n : ℤ) : jsParseInt (n : ℚ) = n := by
  unfold jsParseInt
  split_ifs <;> simp

/-- Processing a run of non-whitespace characters extends the current
segment. -/
theorem splitWsGo_nonws (a : List Char) : ∀ (acc rest : List Char),
    (∀ c ∈ a, isJsWhitespace c = false) →
    splitWsGo false acc (a ++ rest) = splitWsGo false (a.reverse ++ acc) rest := by
  induction a with
  | nil => intro acc rest _; simp
  | cons c a' ih =>
    intro acc rest h
    have hc : isJsWhitespace c = false := h c (List.mem_cons_self _ _)
    simp only [List.cons_append, splitWsGo, hc, Bool.false_eq_true, if_false,
      List.append_eq]
    rw [ih (c :: acc) rest (fun x hx => h x (List.mem_cons_of_mem _ hx))]
    simp

/-- Inside a whitespace run, further whitespace characters are skipped
without emitting a segment. -/
theorem splitWsGo_skipws (w : List Char) : ∀ (acc rest : List Char),
    (∀ c ∈ w, isJsWhitespace c = true) →
    splitWsGo true acc (w ++ rest) = splitWsGo true acc rest := by
  induction w with
  | nil => intro acc rest _; simp
  | cons c w' ih =>
    intro acc rest h
    have hc : isJsWhitespace c = true := h c (List.mem_cons_self _ _)
    simp only [List.cons_append, splitWsGo, hc, if_true, List.append_eq]
    exact ih acc rest (fun x hx => h x (List.mem_cons_of_mem _ hx))

/-- Splitting token–run–token on whitespace yields exactly the two
tokens, whatever the length of the separating run. -/
theorem splitWs_two_tokens (a w b : List Char)
    (hwne : w ≠ [])
    (hbne : b ≠ [])
    (ha : ∀ c ∈ a, isJsWhitespace c = false)
    (hb : ∀ c ∈ b, isJsWhitespace c = false)
    (hw : ∀ c ∈ w, isJsWhitespace c = true) :
    splitWs (a ++ w ++ b) = [a, b] := by
  obtain ⟨w₀, w', rfl⟩ := List.exists_cons_of_ne_nil hwne
  obtain ⟨b₀, b', rfl⟩ := List.exists_cons_of_ne_nil hbne
  have hw₀ : isJsWhitespace w₀ = true := hw w₀ (List.mem_cons_self _ _)
  have hb₀ : isJsWhitespace b₀ = false := hb b₀ (List.mem_cons_self _ _)
  unfold splitWs
  rw [List.append_assoc, splitWsGo_nonws a [] ((w₀ :: w') ++ (b₀ :: b')) ha]
  simp only [List.cons_append, splitWsGo, hw₀, if_true, Bool.false_eq_true, if_false,
    List.append_eq, List.append_nil]
  rw [splitWsGo_skipws w' [] (b₀ :: b') (fun x hx => hw x (List.mem_cons_of_mem _ hx))]
  simp only [splitWsGo, hb₀, Bool.false_eq_true, if_false]
  rw [show b' = b' ++ [] from (List.append_nil b').symm,
    splitWsGo_nonws b' (b₀ :: ([] : List Char)) []
      (fun x hx => hb x (List.mem_cons_of_mem _ hx))]
  simp [splitWsGo]

/-- Trimming leaves a string untouched when its first and last characters
are not whitespace. -/
theorem jsTrim_eq_self (x : Char) (m : List Char) (y : Char)
    (hx : isJsWhitespace x = false) (hy : isJsWhitespace y = false) :
    jsTrim (x :: (m ++ [y])) = x :: (m ++ [y]) := by
  unfold jsTrim
  rw [List.dropWhile_cons, hx]
  simp only [Bool.false_eq_true, if_false]
  rw [show (x :: (m ++ [y])).reverse = y :: (x :: m).reverse by simp]
  rw [List.dropWhile_cons, hy]
  simp

theorem jsWords_two_tokens (a w b : List Char)
    (hane : a ≠ []) (hwne : w ≠ []) (hbne : b ≠ [])
    (ha : ∀ c ∈ a, isJsWhitespace c = false)
    (hw : ∀ c ∈ w, isJsWhitespace c = true)
    (hb : ∀ c ∈ b, isJsWhitespace c = false) :
    jsWords (a ++ w ++ b) = 2 := by
  obtain ⟨a₀, a', rfl⟩ := List.exists_cons_of_ne_nil hane
  obtain ⟨b', b₀, rfl⟩ := (List.eq_nil_or_concat b).resolve_left hbne
  simp only [List.concat_eq_append] at hb ⊢
  have ha₀ : isJsWhitespace a₀ = false := ha a₀ (List.mem_cons_self _ _)
  have hb₀ : isJsWhitespace b₀ = false := hb b₀ (by simp)
  have hshape : (a₀ :: a') ++ w ++ (b' ++ [b₀]) =
      a₀ :: ((a' ++ w ++ b') ++ [b₀]) := by simp
  have htrim : jsTrim ((a₀ :: a') ++ w ++ (b' ++ [b₀])) =
      (a₀ :: a') ++ w ++ (b' ++ [b₀]) := by
    rw [hshape, jsTrim_eq_self a₀ ((a' ++ w ++ b')) b₀ ha₀ hb₀]
  have hsplit := splitWs_two_tokens (a₀ :: a') w (b' ++ [b₀]) hwne
    (by simp) ha hb hw
  unfold jsWords
  rw [htrim, if_neg (by simp), hsplit]
  rfl

/-- The concrete value of `jsLines` at length 20, container width 30 and
font size −5: `parseInt(-5) = -5`, `avgCharWidth = -3`,
`charsPerLine = floor(30 / -3) = -10` (non-zero, so the `|| 1` guard does
not fire), `ceil(20 / -10) = -2` (non-zero, so the final guard does not
fire either). -/
theorem jsLines_neg_example : jsLines 20 30 (-5) = -2 := by
  have hpi : jsParseInt (-5 : ℚ) = -5 := by
    rw [jsParseInt, if_pos (by norm_num : (-5:ℚ) < 0),
      show ((-5:ℚ)) = (((-5):ℤ):ℚ) by norm_num, Int.ceil_intCast]
  simp only [jsLines, hpi]
  have havg : (((-5):ℤ):ℚ) * (6/10) = -3 := by norm_num
  rw [havg, if_neg (by norm_num : ¬((-3:ℚ) = 0))]
  have hdiv : (30:ℚ) / (-3) = ((-10 : ℤ) : ℚ) := by norm_num
  rw [hdiv, Int.floor_intCast, if_neg (by norm_num : ¬((-10:ℤ) = 0))]
  have hdiv2 : ((20:ℕ):ℚ) / (((-10):ℤ):ℚ) = ((-2 : ℤ):ℚ) := by norm_num
  rw [hdiv2, Int.ceil_intCast, if_neg (by norm_num : ¬((-2:ℤ) = 0))]

theorem jsParseInt_18 : jsParseInt ((18:ℚ)) = 18 := by
  rw [jsParseInt, if_neg (by norm_num : ¬((18:ℚ) < 0)),
    show ((18:ℚ)) = (((18):ℤ):ℚ) from by norm_num, Int.floor_intCast]

/-! ## Claim theorems -/

/-- Claim C1, counterexample: for the state with an empty feature set and
both flags off, the live style contains `font-feature-settings: normal`,
`hyphens: manual` and `text-rendering: auto`, but the exported
`.custom-typography` block contains none of them — the export omits
declarations whose value would be the default, so it does not contain
the same properties as the live style. -/
theorem export_omits_defaults_cx :
    ("font-feature-settings", CssVal.str ("normal")) ∈ projectLiveStyle emptyFeatState ∧
    ("font-feature-settings", CssVal.str ("normal")) ∉ (generateCSS emptyFeatState).main ∧
    ("hyphens", CssVal.str ("manual")) ∈ projectLiveStyle emptyFeatState ∧
    ("hyphens", CssVal.str ("manual")) ∉ (generateCSS emptyFeatState).main ∧
    ("text-rendering", CssVal.str ("auto")) ∈ projectLiveStyle emptyFeatState ∧
    ("text-rendering", CssVal.str ("auto")) ∉ (generateCSS emptyFeatState).main := by
  decide

/-- Claim C1, amended: every declaration of the exported
`.custom-typography` rule block appears with an identical value in the
live style mapping, but not conversely — when hyphenation is false, when
layout optimization is false, or when the feature set maps to nothing,
the corresponding declarations (`hyphens: manual`; `text-rendering: auto`,
`font-optical-sizing: none`, `font-variant-ligatures: normal`;
`font-feature-settings: normal`) are present only in the live style and
are omitted from the export. -/
theorem export_main_subset_live (s : ControlState) (d : String × CssVal)
    (h : d ∈ (generateCSS s).main) : d ∈ projectLiveStyle s := by
  simp only [generateCSS] at h
  unfold generateCSSMain at h
  unfold projectLiveStyle
  simp only [fontFeatureValue]
  split_ifs at h ⊢ <;>
    simp only [List.mem_append, List.mem_cons, List.not_mem_nil, List.mem_singleton,
      List.append_nil, or_false, false_or] at h ⊢ <;>
    tauto

/-- Witness for `export_main_subset_live` at a concrete state and
declaration. -/
theorem export_main_subset_live_witness :
    ("font-family", CssVal.str ("serif")) ∈ projectLiveStyle emptyFeatState :=
  export_main_subset_live emptyFeatState _ (by decide)

/-- Claim C2, counterexample: for a text consisting of one emoji (U+1F600,
outside the Basic Multilingual Plane), `characters` is 2 — the UTF-16
code-unit count — while the number of Unicode scalar values is 1. -/
theorem characters_astral_cx :
    (computeMetrics [Char.ofNat 128512] sampleState 600).characters = 2 ∧
    [Char.ofNat 128512].length = 1 := by
  exact ⟨by decide, by decide⟩

/-- Claim C2, amended: `characters` equals the UTF-16 code-unit count of
the text (`text.length`), and that count equals the number of Unicode
scalar values exactly when every character of the text lies in the Basic
Multilingual Plane; a character outside it contributes 2. -/
theorem characters_counts_utf16 (t : List Char) (s : ControlState) (w : ℚ) :
    (computeMetrics t s w).characters = utf16Length t ∧
    (utf16Length t = t.length ↔ ∀ c ∈ t, c.toNat < 65536) := by
  refine ⟨rfl, ?_⟩
  induction t with
  | nil => simp [utf16Length]
  | cons c rest ih =>
    simp only [utf16Length, List.length_cons, List.mem_cons]
    split_ifs with hc
    · constructor
      · intro h
        rintro x (rfl | hx)
        · exact hc
        · exact (ih.1 (by omega)) x hx
      · intro h
        have := ih.2 fun x hx => h x (Or.inr hx)
        omega
    · have hle := length_le_utf16Length rest
      constructor
      · intro h; omega
      · intro h
        exact absurd (h c (Or.inl rfl)) hc

/-- Claim C3: the layout score computed by `calculateLayoutScore` equals
the specification's additive formulation (start at 100; −10 for average
line length over 80; +5 for line height in [1.4, 1.6]; +5 for active
ligatures with ligature-prone text; −5 for |letter spacing| > 2; clamp to
[0, 100]), and it always lies in [0, 100]. -/
theorem layoutScore_matches_spec (t : List Char) (s : ControlState) :
    calculateLayoutScore t s = specLayoutScore t s ∧
    0 ≤ calculateLayoutScore t s ∧ calculateLayoutScore t s ≤ 100 := by
  have hmax : max (1:ℚ) ((t.count ('\n') : ℚ) + 1) = (t.count ('\n') : ℚ) + 1 := by
    have h0 : (0:ℚ) ≤ (t.count ('\n') : ℚ) := by positivity
    apply max_eq_right
    linarith
  simp only [calculateLayoutScore, specLayoutScore, Nat.succ_ne_zero, if_false, hmax]
  push_cast
  split_ifs <;> exact ⟨by decide, by decide, by decide⟩

/-- Claim C4: for any control state with an integer font size (as the
data model requires), the 768px media block holds
`font-size: max(14, fontSize*0.9)px` and
`line-height: max(1.2, lineHeight*0.95)`, and the 480px block holds
`font-size: max(12, fontSize*0.8)px` computed from the original font size
and `letter-spacing: max(0, letterSpacing*0.8)px`, which is never
negative. -/
theorem mediaBlocks_correct (s : ControlState) (n : ℤ) (h : s.fontSize = (n : ℚ)) :
    (generateCSS s).media768 =
      [("font-size", CssVal.px (max 14 (s.fontSize * (9/10)))),
       ("line-height", CssVal.num (max (6/5) (s.lineHeight * (19/20))))] ∧
    (generateCSS s).media480 =
      [("font-size", CssVal.px (max 12 (s.fontSize * (8/10)))),
       ("letter-spacing", CssVal.px (max 0 (s.letterSpacing * (8/10))))] ∧
    (0 : ℚ) ≤ max 0 (s.letterSpacing * (8/10)) := by
  simp only [generateCSS, h, jsParseInt_intCast]
  exact ⟨trivial, trivial, le_max_left 0 _⟩

/-- Witness for `mediaBlocks_correct` at the state with font size 16 and
letter spacing 0.8. -/
theorem mediaBlocks_correct_witness :
    (generateCSS sampleState16).media768 =
      [("font-size", CssVal.px (max 14 (sampleState16.fontSize * (9/10)))),
       ("line-height", CssVal.num (max (6/5) (sampleState16.lineHeight * (19/20))))] ∧
    (generateCSS sampleState16).media480 =
      [("font-size", CssVal.px (max 12 (sampleState16.fontSize * (8/10)))),
       ("letter-spacing", CssVal.px (max 0 (sampleState16.letterSpacing * (8/10))))] ∧
    (0 : ℚ) ≤ max 0 (sampleState16.letterSpacing * (8/10)) :=
  mediaBlocks_correct sampleState16 16 (by norm_num [sampleState16])

/-- Claim C5: the `font-feature-settings` value of the live projection is
obtained by mapping the active tags through the fixed table in insertion
order and joining with a comma and space, with the literal `normal` for
the empty set; in particular kerning followed by ligatures yields
`"kern" 1, "liga" 1, "clig" 1`. -/
theorem fontFeatureSettings_correct (l : List FeatureTag) :
    fontFeatureValue (l.map tagName) = specFontFeatureSettings l ∧
    fontFeatureValue ["kerning", "ligatures"] = "\"kern\" 1, \"liga\" 1, \"clig\" 1" := by
  constructor
  · cases l with
    | nil => simp [fontFeatureValue, mappedFeatures, specFontFeatureSettings, joinFeatures]
    | cons t rest =>
      have hmap := mappedFeatures_tagName (t :: rest)
      simp only [List.map_cons] at hmap
      simp only [fontFeatureValue, List.map_cons, hmap, specFontFeatureSettings]
      rw [if_neg (joinFeatures_ne_empty _ _ (specFeatureStr_ne_empty t))]
      simp
  · decide

/-- Claim C6: `words` is 0 whenever the trimmed text is empty, and a text
of the form token–whitespace run–token counts as exactly 2 words
regardless of the whitespace run's length. -/
theorem words_spec :
    (∀ (t : List Char) (s : ControlState) (cw : ℚ),
        jsTrim t = [] → (computeMetrics t s cw).words = 0) ∧
    (∀ (a w b : List Char) (s : ControlState) (cw : ℚ),
        a ≠ [] → w ≠ [] → b ≠ [] →
        (∀ c ∈ a, isJsWhitespace c = false) →
        (∀ c ∈ w, isJsWhitespace c = true) →
        (∀ c ∈ b, isJsWhitespace c = false) →
        (computeMetrics (a ++ w ++ b) s cw).words = 2) := by
  constructor
  · intro t s cw h
    simp [computeMetrics, jsWords, h]
  · intro a w b s cw hane hwne hbne ha hw hb
    exact jsWords_two_tokens a w b hane hwne hbne ha hw hb

/-- Witness for `words_spec` on the text `"hello   world"`. -/
theorem words_spec_witness :
    (computeMetrics (("hello").data ++ ("   ").data ++ ("world").data)
        sampleState 600).words = 2 :=
  words_spec.2 (("hello").data) (("   ").data) (("world").data) sampleState 600
    (by decide) (by decide) (by decide) (by decide) (by decide) (by decide)

/-- Claim C7, counterexample: at font size −5, container width 30 and a
20-character text, `charsPerLine = floor(30 / -3) = -10` — the `|| 1`
guard replaces only a zero value, not a negative one, so it is not
`max(1, ·)` — and the returned line count is −2, which is less than 1. -/
theorem lines_negative_cx :
    (computeMetrics (List.replicate 20 ('a')) negFontState 30).lines = -2 ∧
    ¬(1 ≤ (computeMetrics (List.replicate 20 ('a')) negFontState 30).lines) := by
  have h : (computeMetrics (List.replicate 20 ('a')) negFontState 30).lines
      = jsLines 20 30 (-5) := by
    simp only [computeMetrics, negFontState]
    rw [show utf16Length (List.replicate 20 ('a')) = 20 from by decide]
  rw [h, jsLines_neg_example]
  norm_num

/-- Claim C7, amended: when the (truncated) font size is positive and the
container width is non-negative, the line count equals
`max(1, ceil(characters / max(1, floor(containerWidth / (fontSize*0.6)))))`
and is at least 1; the `|| 1` guards behave as floors at 1 only on this
domain, because a quotient that is zero (or NaN) is replaced by 1 while a
negative quotient — possible only with a negative font size — is kept. -/
theorem lines_guarded (t : List Char) (s : ControlState) (cw : ℚ)
    (hfs : 0 < jsParseInt s.fontSize) (hcw : 0 ≤ cw) :
    (computeMetrics t s cw).lines =
      max 1 ⌈(utf16Length t : ℚ) /
        ((max 1 ⌊cw / ((jsParseInt s.fontSize : ℚ) * (6/10))⌋ : ℤ) : ℚ)⌉ ∧
    1 ≤ (computeMetrics t s cw).lines := by
  have hk1 : (1:ℚ) ≤ (jsParseInt s.fontSize : ℚ) := by exact_mod_cast hfs
  have havg : (0:ℚ) < (jsParseInt s.fontSize : ℚ) * (6/10) := by nlinarith
  have key : ∀ cpl : ℤ, 1 ≤ cpl →
      (if ⌈(utf16Length t : ℚ) / ((cpl:ℤ):ℚ)⌉ = 0 then (1:ℤ)
       else ⌈(utf16Length t : ℚ) / ((cpl:ℤ):ℚ)⌉)
        = max 1 ⌈(utf16Length t : ℚ) / ((cpl:ℤ):ℚ)⌉ ∧
      (1:ℤ) ≤ (if ⌈(utf16Length t : ℚ) / ((cpl:ℤ):ℚ)⌉ = 0 then (1:ℤ)
       else ⌈(utf16Length t : ℚ) / ((cpl:ℤ):ℚ)⌉) := by
    intro cpl hcpl
    have hpos : (0:ℚ) < ((cpl:ℤ):ℚ) := by exact_mod_cast hcpl.trans_lt' (by norm_num)
    have hq : (0:ℚ) ≤ (utf16Length t : ℚ) / ((cpl:ℤ):ℚ) := by positivity
    have hl : 0 ≤ ⌈(utf16Length t : ℚ) / ((cpl:ℤ):ℚ)⌉ := Int.ceil_nonneg hq
    constructor
    · split_ifs with h0
      · rw [h0]
        exact (max_eq_left (by norm_num)).symm
      · exact (max_eq_right (by omega)).symm
    · split_ifs with h0
      · omega
      · omega
  simp only [computeMetrics, jsLines]
  rw [if_neg (ne_of_gt havg)]
  have hcpl0 : 0 ≤ ⌊cw / ((jsParseInt s.fontSize : ℚ) * (6/10))⌋ :=
    Int.floor_nonneg.mpr (by positivity)
  by_cases hczero : ⌊cw / ((jsParseInt s.fontSize : ℚ) * (6/10))⌋ = 0
  · rw [if_pos hczero, hczero]
    have hmax : max (1:ℤ) 0 = 1 := max_eq_left (by norm_num)
    rw [hmax]
    exact key 1 le_rfl
  · rw [if_neg hczero]
    have hge : (1:ℤ) ≤ ⌊cw / ((jsParseInt s.fontSize : ℚ) * (6/10))⌋ := by omega
    have hmax : max (1:ℤ) ⌊cw / ((jsParseInt s.fontSize : ℚ) * (6/10))⌋
        = ⌊cw / ((jsParseInt s.fontSize : ℚ) * (6/10))⌋ := max_eq_right hge
    rw [hmax]
    exact key _ hge

/-- Witness for `lines_guarded` at font size 18, container width 300 and
a 10-character text. -/
theorem lines_guarded_witness :
    (computeMetrics (List.replicate 10 ('a')) sampleState 300).lines =
      max 1 ⌈(utf16Length (List.replicate 10 ('a')) : ℚ) /
        ((max 1 ⌊(300:ℚ) /
          ((jsParseInt sampleState.fontSize : ℚ) * (6/10))⌋ : ℤ) : ℚ)⌉ ∧
    1 ≤ (computeMetrics (List.replicate 10 ('a')) sampleState 300).lines :=
  lines_guarded (List.replicate 10 ('a')) sampleState 300
    (by rw [show sampleState.fontSize = ((18:ℚ)) from rfl, jsParseInt_18]; norm_num)
    (by norm_num)

/-- Claim C8, counterexample: the tag `constructor` lies outside the six
defined feature tags, yet it is not ignored — the bare lookup
`featureMap[feature]` resolves it through `Object.prototype` to the
truthy `Object` constructor, which both `applyOpenTypeFeatures`
(push-if-truthy, `script.js:338`) and `generateCSS` (`filter(Boolean)`,
`script.js:512`) keep, so its string coercion lands in the
`font-feature-settings` value of both the live style and the exported
rule block instead of contributing nothing. -/
theorem unknown_proto_tag_cx :
    ("font-feature-settings",
      CssVal.str ("function Object() \x7b [native code] \x7d"))
        ∈ projectLiveStyle ctorState ∧
    ("font-feature-settings",
      CssVal.str ("function Object() \x7b [native code] \x7d"))
        ∈ (generateCSS ctorState).main ∧
    fontFeatureValue ["constructor"] ≠ "normal" ∧
    fontFeatureValue ["constructor"] ≠ fontFeatureValue [] := by
  decide

/-- Claim C8, amended: a feature tag outside the six-entry table is
silently ignored — removing it changes neither the live style projection
nor the generated CSS, and both projections remain total — exactly when
its lookup is falsy, i.e. when the tag is also not one of the property
names inherited from `Object.prototype`; a tag naming an inherited
property (see `unknown_proto_tag_cx`) resolves to a truthy value and is
not ignored. -/
theorem unknown_tags_ignored (s s' : ControlState) (tag : String)
    (pre post : List String) (hmap : featureMap tag = none)
    (hs : s.activeFeatures = pre ++ tag :: post)
    (hs' : s' = { s with activeFeatures := pre ++ post }) :
    projectLiveStyle s = projectLiveStyle s' ∧ generateCSS s = generateCSS s' := by
  subst hs'
  have hfeat : mappedFeatures s.activeFeatures = mappedFeatures (pre ++ post) := by
    rw [hs]
    simp [mappedFeatures, List.filterMap_append, List.filterMap_cons, hmap]
  constructor
  · simp [projectLiveStyle, fontFeatureValue, hfeat]
  · simp [generateCSS, generateCSSMain, hfeat]

/-- Witness for `unknown_tags_ignored` with the unknown tag `swashes`. -/
theorem unknown_tags_ignored_witness :
    projectLiveStyle sampleStateUnknown =
      projectLiveStyle { sampleStateUnknown with activeFeatures := ["kerning"] ++ ["ligatures"] } ∧
    generateCSS sampleStateUnknown =
      generateCSS { sampleStateUnknown with activeFeatures := ["kerning"] ++ ["ligatures"] } :=
  unknown_tags_ignored sampleStateUnknown _ ("swashes") (["kerning"]) (["ligatures"])
    (by decide) (by decide) rfl

/-- Claim C9: the layout score never drops below 85 — the only penalties
are −10 and −5 against a start of 100, so the documented lower clamp at 0
is unreachable and the effective range is [85, 100]. -/
theorem layoutScore_bounds (t : List Char) (s : ControlState) :
    85 ≤ calculateLayoutScore t s ∧ calculateLayoutScore t s ≤ 100 := by
  simp only [calculateLayoutScore]
  split_ifs <;> constructor <;> decide

/-- Claim C10: the main rule emits the control's font size verbatim while
both media-query font sizes are computed from its `parseInt` truncation;
for a non-integer font size the truncation differs from the emitted
value, so the breakpoints derive from a different base than the main
rule. -/
theorem media_fontSize_truncated (s : ControlState) (h : s.fontSize.den ≠ 1) :
    ("font-size", CssVal.px s.fontSize) ∈ (generateCSS s).main ∧
    (generateCSS s).media768 =
      [("font-size", CssVal.px (max 14 ((jsParseInt s.fontSize : ℚ) * (9/10)))),
       ("line-height", CssVal.num (max (6/5) (s.lineHeight * (19/20))))] ∧
    (generateCSS s).media480 =
      [("font-size", CssVal.px (max 12 ((jsParseInt s.fontSize : ℚ) * (8/10)))),
       ("letter-spacing", CssVal.px (max 0 (s.letterSpacing * (8/10))))] ∧
    (jsParseInt s.fontSize : ℚ) ≠ s.fontSize := by
  refine ⟨?_, rfl, rfl, ?_⟩
  · simp [generateCSS, generateCSSMain]
  · intro hcast
    apply h
    rw [← hcast]
    exact Rat.den_intCast _

/-- Witness for `media_fontSize_truncated` at font size 18.5, where the
truncation is 18. -/
theorem media_fontSize_truncated_witness :
    sampleState185.fontSize.den ≠ 1 ∧ jsParseInt sampleState185.fontSize = 18 ∧
    (("font-size", CssVal.px sampleState185.fontSize) ∈ (generateCSS sampleState185).main ∧
    (generateCSS sampleState185).media768 =
      [("font-size", CssVal.px (max 14 ((jsParseInt sampleState185.fontSize : ℚ) * (9/10)))),
       ("line-height", CssVal.num (max (6/5) (sampleState185.lineHeight * (19/20))))] ∧
    (generateCSS sampleState185).media480 =
      [("font-size", CssVal.px (max 12 ((jsParseInt sampleState185.fontSize : ℚ) * (8/10)))),
       ("letter-spacing", CssVal.px (max 0 (sampleState185.letterSpacing * (8/10))))] ∧
    (jsParseInt sampleState185.fontSize : ℚ) ≠ sampleState185.fontSize) := by
  refine ⟨by norm_num [sampleState185, Rat.den], ?_,
    media_fontSize_truncated sampleState185 (by norm_num [sampleState185, Rat.den])⟩
  have hneg : ¬((37:ℚ)/2 < 0) := by norm_num
  simp only [sampleState185, jsParseInt, if_neg hneg, Rat.floor_def]
  norm_num
